import Mathlib

/-!
Verification of the blogicum blog application (django_sprint4).

The development shallowly embeds the application's data model and request
handlers from `src/blogicum/blog/managers.py`, `src/blogicum/blog/views.py`
and `src/blogicum/core/views.py`.  The database is a record of lists, a
request handler is a function from the database (plus request data) to a
response paired with the possibly-updated database, and Django ORM quersyet
operations (`filter`, `get_object_or_404`) become list operations.  Machine
times (`timezone.now()`, `pub_date`) are modelled as integers; the current
time is always passed explicitly.
-/

/-- A category row: `Category` model (slug, published flag); the remaining
columns play no role in the claims. -/
structure Category where
  id : Nat
  slug : String
  is_published : Bool
deriving DecidableEq

/-- A post row: `Post` model (author and category foreign keys by id,
publish timestamp, published flag, title/text payload). -/
structure Post where
  id : Nat
  author : Nat
  category : Nat
  pub_date : Int
  is_published : Bool
  title : String
  text : String
deriving DecidableEq

/-- A comment row: `Comment` model (author and post foreign keys, text). -/
structure Comment where
  id : Nat
  author : Nat
  post_id : Nat
  text : String
deriving DecidableEq

/-- A user row: the framework `User` model, with the one editable column the
profile form touches kept abstract as `first_name`. -/
structure UserRec where
  id : Nat
  username : String
  first_name : String
deriving DecidableEq

/-- The relational store the handlers read and write.  `nextCommentId` and
`nextPostId` model the database auto-increment counters. -/
structure DB where
  categories : List Category
  posts : List Post
  comments : List Comment
  users : List UserRec
  nextPostId : Nat
  nextCommentId : Nat
deriving DecidableEq

/-- Lookup of a post's category row by foreign key, and its published flag
(`category__is_published` join in the manager's filter); a dangling foreign
key matches nothing, like the SQL join. -/
def categoryIsPublished (db : DB) (cid : Nat) : Bool :=
  match db.categories.find? (fun c => c.id == cid) with
  | some c => c.is_published
  | none => false

/-- The filter of `PublishedPostManager.get_queryset`
(`managers.py`): `pub_date__lte=timezone.now(), is_published=True,
category__is_published=True`. -/
def publishedFilter (db : DB) (now : Int) (p : Post) : Bool :=
  decide (p.pub_date ≤ now) && p.is_published && categoryIsPublished db p.category

/-- `PostListView.get_queryset` (`views.py`): `Post.published.all()`, the
published manager applied to the whole post table. -/
def postListQueryset (db : DB) (now : Int) : List Post :=
  db.posts.filter (publishedFilter db now)

/-- A named URL target of `redirect(...)` / `reverse(...)` in `views.py`. -/
inductive Target where
  | postDetail (pk : Nat)
  | profile (username : String)
  | login
  | index
deriving DecidableEq

/-- An HTTP response as the handlers produce it: a rendered template with a
status code, a redirect to a named URL, or the `Http404` raised by
`get_object_or_404`. -/
inductive Response where
  | render (template : String) (status : Nat)
  | redirect (t : Target)
  | http404
deriving DecidableEq

/-- Whether a response is a rendered page (as opposed to a redirect or 404). -/
def Response.isRender : Response → Bool
  | .render _ _ => true
  | _ => false

/-- The request method, as `request.method == 'POST'` distinguishes it. -/
inductive Method where
  | get
  | post
deriving DecidableEq

/-- `get_object_or_404(Post, pk=pk)`: primary-key lookup in the post table. -/
def findPost (db : DB) (pk : Nat) : Option Post :=
  db.posts.find? (fun p => p.id == pk)

/-- `get_object_or_404(Comment, id=comment_id, post_id=post_id)`. -/
def findComment (db : DB) (comment_id post_id : Nat) : Option Comment :=
  db.comments.find? (fun c => c.id == comment_id && c.post_id == post_id)

/-- `get_object_or_404(User, username=name)`. -/
def findUser (db : DB) (name : String) : Option UserRec :=
  db.users.find? (fun u => u.username == name)

/-- `PostDetailView.get_object` (`views.py`): the post table restricted by
`Q(is_published=True) | Q(author=request.user)`, then `pk` lookup; `none`
models the `Http404` of `get_object_or_404`. -/
def postDetailGetObject (db : DB) (user pk : Nat) : Option Post :=
  (db.posts.filter (fun p => p.is_published || p.author == user)).find?
    (fun p => p.id == pk)

/-- The full `PostDetailView` response: the found post's detail page, or 404. -/
def postDetailView (db : DB) (user pk : Nat) : Response :=
  match postDetailGetObject db user pk with
  | some _ => Response.render "blog/detail.html" 200
  | none => Response.http404

/-- Modelled from the spec: the cleaned data of a valid `PostForm`
(`forms.py` is not in src); the spec's §3 lists title, body, publish
timestamp and category as the editable post columns. -/
structure PostFormData where
  title : String
  text : String
  pub_date : Int
  category : Nat
deriving DecidableEq

/-- Modelled from the spec: the cleaned data of a valid `ProfileForm`
(`forms.py` is not in src); the one editable column is kept abstract. -/
structure ProfileFormData where
  first_name : String
deriving DecidableEq

/-- `form.save()` for a bound `PostForm` with an instance: overwrite the
form's columns, keep the primary key and author. -/
def applyPostForm (p : Post) (fd : PostFormData) : Post :=
  { p with title := fd.title, text := fd.text, pub_date := fd.pub_date,
           category := fd.category }

/-- `PostCreateView` (`views.py`): `LoginRequiredMixin` + `CreateView` with
`PostForm`; a valid form is saved with `form.instance.author = request.user`
and redirects to the author's profile, an invalid submission re-renders
`blog/create.html`.  A submitted form is `some` cleaned data when it
validates and `none` otherwise. -/
def postCreateView (db : DB) (user : UserRec) (form : Option PostFormData) :
    Response × DB :=
  match form with
  | some fd =>
      (Response.redirect (Target.profile user.username),
       { db with
           posts := db.posts ++
             [{ id := db.nextPostId, author := user.id, category := fd.category,
                pub_date := fd.pub_date, is_published := true,
                title := fd.title, text := fd.text }],
           nextPostId := db.nextPostId + 1 })
  | none => (Response.render "blog/create.html" 200, db)

/-- `PostUpdateView` (`views.py`): `DispatchMixin.dispatch` redirects a
non-author to the post's detail page before the `UpdateView` machinery runs;
otherwise a valid form is saved and redirects to the detail page, an invalid
one re-renders `blog/create.html`. -/
def postUpdateView (db : DB) (user pk : Nat) (form : Option PostFormData) :
    Response × DB :=
  match findPost db pk with
  | none => (Response.http404, db)
  | some p =>
      if p.author != user then
        (Response.redirect (Target.postDetail pk), db)
      else
        match form with
        | some fd =>
            (Response.redirect (Target.postDetail pk),
             { db with posts := (db.posts.map
                 (fun q => if q.id == pk then applyPostForm q fd else q)) })
        | none => (Response.render "blog/create.html" 200, db)

/-- `PostDeleteView` (`views.py`): `DispatchMixin.dispatch` redirects a
non-author to the post's detail page; otherwise `DeleteView` renders the
confirmation template on GET and deletes then redirects to the index on
POST. -/
def postDeleteView (db : DB) (user pk : Nat) (method : Method) :
    Response × DB :=
  match findPost db pk with
  | none => (Response.http404, db)
  | some p =>
      if p.author != user then
        (Response.redirect (Target.postDetail pk), db)
      else
        match method with
        | .post =>
            (Response.redirect Target.index,
             { db with posts := db.posts.filter (fun q => q.id != pk) })
        | .get => (Response.render "blog/create.html" 200, db)

/-- `add_comment` (`views.py`): fetch the post by pk or 404, then save a
valid `CommentForm` with the requester as author and the post as parent, and
in every non-404 case redirect to the post's detail page.  A submitted form
is `some` text when it validates and `none` otherwise (an unbound GET form is
never valid). -/
def add_comment (db : DB) (user pk : Nat) (form : Option String) :
    Response × DB :=
  match findPost db pk with
  | none => (Response.http404, db)
  | some _ =>
      match form with
      | some text =>
          (Response.redirect (Target.postDetail pk),
           { db with
               comments := db.comments ++
                 [{ id := db.nextCommentId, author := user, post_id := pk,
                    text := text }],
               nextCommentId := db.nextCommentId + 1 })
      | none => (Response.redirect (Target.postDetail pk), db)

/-- `edit_comment` (`views.py`): fetch the comment or 404; a non-author is
redirected to the post's detail page; a valid form is saved and redirects
there too; otherwise the form is re-rendered on `blog/comment.html`. -/
def edit_comment (db : DB) (user comment_id post_id : Nat)
    (form : Option String) : Response × DB :=
  match findComment db comment_id post_id with
  | none => (Response.http404, db)
  | some inst =>
      if inst.author != user then
        (Response.redirect (Target.postDetail post_id), db)
      else
        match form with
        | some text =>
            (Response.redirect (Target.postDetail post_id),
             { db with comments := (db.comments.map
                 (fun c => if c.id == comment_id then { c with text := text }
                           else c)) })
        | none => (Response.render "blog/comment.html" 200, db)

/-- `delete_comment` (`views.py`): fetch the comment or 404; a non-author is
redirected to the post's detail page; the author gets the confirmation page
on a non-POST request, and the deletion plus redirect on POST. -/
def delete_comment (db : DB) (user comment_id post_id : Nat)
    (method : Method) : Response × DB :=
  match findComment db comment_id post_id with
  | none => (Response.http404, db)
  | some c =>
      if c.author != user then
        (Response.redirect (Target.postDetail post_id), db)
      else
        match method with
        | .post =>
            (Response.redirect (Target.postDetail post_id),
             { db with comments := (db.comments.filter
                 (fun x => x.id != c.id)) })
        | .get => (Response.render "blog/comment.html" 200, db)

/-- `edit_profile` (`views.py`): fetch the user by username or 404; a
requester with a different username is redirected to the login page; a valid
form is saved; in both form cases `blog/user.html` is rendered. -/
def edit_profile (db : DB) (requester name : String)
    (form : Option ProfileFormData) : Response × DB :=
  match findUser db name with
  | none => (Response.http404, db)
  | some u =>
      if u.username != requester then
        (Response.redirect Target.login, db)
      else
        match form with
        | some fd =>
            (Response.render "blog/user.html" 200,
             { db with users := (db.users.map
                 (fun v => if v.username == name then
                             { v with first_name := fd.first_name }
                           else v)) })
        | none => (Response.render "blog/user.html" 200, db)

/-- The `page` query-string parameter as `request.GET.get('page')` hands it to
the paginator: missing, present but not an integer literal, or an integer. -/
inductive PageArg where
  | absent
  | notAnInt
  | int (n : Int)
deriving DecidableEq

/-- A `django.core.paginator.Page`: the slice of records plus the metadata
the templates read (`has_previous`, `has_next`, `paginator.num_pages`). -/
structure Page (α : Type) where
  object_list : List α
  number : Nat
  has_previous : Bool
  has_next : Bool
  num_pages : Nat
deriving DecidableEq

/-- `Paginator.num_pages` (Django `django/core/paginator.py`, with the
default `orphans=0`, `allow_empty_first_page=True`):
`ceil(max(1, count) / per_page)`. -/
def numPages (count per_page : Nat) : Nat :=
  (max 1 count + per_page - 1) / per_page

/-- `Paginator.get_page` number resolution (Django): `validate_number`
raises `PageNotAnInteger` for a missing or non-integer parameter, handled as
page 1, and `EmptyPage` for an integer below 1 or above `num_pages`, handled
as the last page. -/
def getPageNumber (count per_page : Nat) : PageArg → Nat
  | .absent => 1
  | .notAnInt => 1
  | .int n =>
      if n < 1 then numPages count per_page
      else if (numPages count per_page : Int) < n then numPages count per_page
      else n.toNat

/-- `Paginator.get_page` (Django): resolve the page number, then slice
`object_list[(number-1)*per_page : number*per_page]` and attach the page
metadata. -/
def getPage {α : Type} (objects : List α) (per_page : Nat) (arg : PageArg) :
    Page α :=
  { object_list :=
      (objects.drop
        ((getPageNumber objects.length per_page arg - 1) * per_page)).take
        per_page
    number := getPageNumber objects.length per_page arg
    has_previous := decide (1 < getPageNumber objects.length per_page arg)
    has_next := decide (getPageNumber objects.length per_page arg <
      numPages objects.length per_page)
    num_pages := numPages objects.length per_page }

/-- `paginate_objects` (`views.py`): `Paginator(objects_list,
per_page).get_page(request.GET.get('page'))`; every call site uses the
default `per_page=10` (or `settings.BLOG_PAGINATE_BY`). -/
def paginate_objects {α : Type} (objects : List α) (per_page : Nat)
    (arg : PageArg) : Page α :=
  getPage objects per_page arg

/-- The listing order: post `a` comes no later than post `b` when `a`'s
publish timestamp is at least `b`'s (descending timestamps). -/
def byRecentFirst (a b : Post) : Prop :=
  b.pub_date ≤ a.pub_date

instance : DecidableRel byRecentFirst :=
  fun a b => Int.decLe b.pub_date a.pub_date

instance : IsTotal Post byRecentFirst :=
  ⟨fun a b => Int.le_total b.pub_date a.pub_date⟩

instance : IsTrans Post byRecentFirst :=
  ⟨fun _ _ _ hab hbc => le_trans hbc hab⟩

/-- Modelled from the spec: the `Post` model's default ordering (`models.py`
is not under `src`; the spec's §4.1 says listings are "ordered by descending
publish timestamp"), which the `ListView` leaves in force on
`Post.published.all()`.  Descending-timestamp sorting of the published
queryset. -/
def postListOrdered (db : DB) (now : Int) : List Post :=
  List.insertionSort byRecentFirst (postListQueryset db now)

/-- The posts of one category through the published manager:
`category.posts(manager='published').all()` in `category_posts`. -/
def categoryPostList (db : DB) (now : Int) (cat : Category) : List Post :=
  db.posts.filter (fun p => p.category == cat.id && publishedFilter db now p)

/-- `category_posts` (`views.py`): `get_object_or_404(Category,
is_published=True, slug=category_slug)`, then render `blog/category.html`
with the paginated published posts of the category.  The second component is
the `page_obj` handed to the template, `none` on the 404 path. -/
def category_posts (db : DB) (now : Int) (slug : String) (arg : PageArg) :
    Response × Option (Page Post) :=
  match db.categories.find? (fun c => c.is_published && c.slug == slug) with
  | none => (Response.http404, none)
  | some cat =>
      (Response.render "blog/category.html" 200,
       some (paginate_objects (categoryPostList db now cat) 10 arg))

/-- `page_not_found` (`core/views.py`): render `core/404.html` with
`HTTPStatus.NOT_FOUND`. -/
def page_not_found : Response :=
  Response.render "core/404.html" 404

/-- `csrf_failure` (`core/views.py`): render `core/403csrf.html` with
`HTTPStatus.FORBIDDEN`. -/
def csrf_failure : Response :=
  Response.render "core/403csrf.html" 403

/-- The two error conditions routed to the custom error views. -/
inductive ErrorKind where
  | recordNotFound
  | csrfFailure
deriving DecidableEq

/-- Modelled from the spec: the framework wiring that routes an uncaught
`Http404` to the `handler404` view and a CSRF rejection to the configured
CSRF failure view (the `urls.py` / settings lines doing so are not under
`src`); the spec's §7 names `page_not_found` and `csrf_failure` as those
views. -/
def errorDispatch : ErrorKind → Response
  | .recordNotFound => page_not_found
  | .csrfFailure => csrf_failure

/-- The HTTP status of a response (redirects are 302 `HttpResponseRedirect`). -/
def Response.status : Response → Nat
  | .render _ s => s
  | .redirect _ => 302
  | .http404 => 404

/-- Example data: a published category. -/
def catPub : Category := { id := 1, slug := "nature", is_published := true }

/-- Example data: an unpublished category. -/
def catHidden : Category := { id := 2, slug := "secret", is_published := false }

/-- Example data: the user who authors the example post and comment. -/
def alice : UserRec := { id := 1, username := "alice", first_name := "A" }

/-- Example data: a second user. -/
def bob : UserRec := { id := 2, username := "bob", first_name := "B" }

/-- Example data: a post by alice with the published flag set but a publish
timestamp of 5, still in the future at time 0 and already reached at time
10. -/
def futurePost : Post :=
  { id := 1, author := 1, category := 1, pub_date := 5, is_published := true,
    title := "t1", text := "x1" }

/-- Example data: an unpublished draft by alice. -/
def draftPost : Post :=
  { id := 2, author := 1, category := 1, pub_date := -5, is_published := false,
    title := "t2", text := "x2" }

/-- Example data: an old published post by bob. -/
def oldPost : Post :=
  { id := 3, author := 2, category := 1, pub_date := -3, is_published := true,
    title := "t3", text := "x3" }

/-- Example data: a comment by alice on post 1. -/
def aliceComment : Comment :=
  { id := 1, author := 1, post_id := 1, text := "c1" }

/-- Example database used to instantiate the theorems at concrete inputs. -/
def exDB : DB :=
  { categories := [catPub, catHidden],
    posts := [futurePost, draftPost, oldPost],
    comments := [aliceComment],
    users := [alice, bob],
    nextPostId := 10,
    nextCommentId := 10 }

/-- Membership in the published queryset, unfolded to the three manager
filter conditions (shared by the listing claims). -/
theorem mem_postListQueryset (db : DB) (now : Int) (p : Post) :
    p ∈ postListQueryset db now ↔
      p ∈ db.posts ∧ p.is_published = true ∧ p.pub_date ≤ now ∧
        categoryIsPublished db p.category = true := by
  unfold postListQueryset publishedFilter
  rw [List.mem_filter]
  constructor
  · rintro ⟨hp, hf⟩
    simp only [Bool.and_eq_true, decide_eq_true_eq] at hf
    exact ⟨hp, hf.1.2, hf.1.1, hf.2⟩
  · rintro ⟨hp, h1, h2, h3⟩
    refine ⟨hp, ?_⟩
    simp only [Bool.and_eq_true, decide_eq_true_eq]
    exact ⟨⟨h2, h1⟩, h3⟩

/-- Claim C1: a post appears in the public home listing iff it is in the post
table with its published flag true, its publish timestamp at most the current
time, and its category's published flag true. -/
theorem c1_home_listing_visibility (db : DB) (now : Int) (p : Post) :
    p ∈ postListQueryset db now ↔
      p ∈ db.posts ∧ p.is_published = true ∧ p.pub_date ≤ now ∧
        categoryIsPublished db p.category = true :=
  mem_postListQueryset db now p

/-- Claim C2 (counterexample): at time 0 the post `futurePost` has its
published flag set but a future publish timestamp, so it fails the full
visibility predicate; yet the detail view hands it to user 2, who is not its
author — the detail queryset checks only the published flag, never the
timestamp or the category. -/
theorem c2_counterexample :
    postDetailGetObject exDB 2 1 = some futurePost ∧
    publishedFilter exDB 0 futurePost = false ∧
    futurePost.author ≠ 2 := by decide

/-- Claim C2 (amended): for a post table with distinct primary keys, the
detail view returns post `p` iff `p`'s published flag is true or the
requester is `p`'s author; the publish timestamp and the category's flag are
not consulted. -/
theorem c2_detail_visibility (db : DB) (user pk : Nat)
    (hnd : (db.posts.map Post.id).Nodup) (p : Post) (hp : p ∈ db.posts)
    (hpk : p.id = pk) :
    postDetailGetObject db user pk = some p ↔
      (p.is_published = true ∨ p.author = user) := by
  unfold postDetailGetObject
  constructor
  · intro h
    have hmem := List.mem_of_find?_eq_some h
    have hpf := (List.mem_filter.mp hmem).2
    simpa [Bool.or_eq_true] using hpf
  · intro h
    have hpf : (fun q : Post => q.is_published || q.author == user) p = true := by
      simp only [Bool.or_eq_true, beq_iff_eq]
      exact h
    have hmemF : p ∈ db.posts.filter
        (fun q => q.is_published || q.author == user) :=
      List.mem_filter.mpr ⟨hp, hpf⟩
    have hs : ((db.posts.filter
        (fun q => q.is_published || q.author == user)).find?
        (fun q => q.id == pk)).isSome := by
      rw [List.find?_isSome]
      exact ⟨p, hmemF, by simp [hpk]⟩
    cases hfind : (db.posts.filter
        (fun q => q.is_published || q.author == user)).find?
        (fun q => q.id == pk) with
    | none => rw [hfind] at hs; simp at hs
    | some q =>
      have hqmem := List.mem_of_find?_eq_some hfind
      have hqid : q.id = pk := by simpa using List.find?_some hfind
      have hqposts : q ∈ db.posts := List.mem_of_mem_filter hqmem
      have hqp : q = p :=
        List.inj_on_of_nodup_map hnd hqposts hp (by rw [hqid, hpk])
      rw [hqp]

/-- Claim C2, witness: the amended equivalence evaluated at the example
database, post 1 and requester 2. -/
theorem c2_detail_visibility_witness :
    postDetailGetObject exDB 2 1 = some futurePost ↔
      (futurePost.is_published = true ∨ futurePost.author = 2) :=
  c2_detail_visibility exDB 2 1 (by decide) futurePost (by decide) (by decide)

/-- Claim C3 (counterexample): the profile edit handler sends a non-owner to
the login page, not to the record's detail (profile) page, and leaves the
database unchanged. -/
theorem c3_counterexample :
    edit_profile exDB "bob" "alice" (some { first_name := "Z" }) =
      (Response.redirect Target.login, exDB) ∧
    Target.login ≠ Target.profile "alice" := by decide

/-- Claim C3 (amended): an edit or delete request on a post or comment by an
authenticated non-author leaves the database unchanged and redirects to the
post's detail page; a profile edit by a non-owner leaves the database
unchanged and redirects to the login page. -/
theorem c3_nonauthor_guard (db : DB) (user pk cid pid : Nat)
    (requester name : String) (pform : Option PostFormData)
    (cform : Option String) (uform : Option ProfileFormData) (method : Method)
    (p : Post) (hp : findPost db pk = some p) (hpa : p.author ≠ user)
    (c : Comment) (hc : findComment db cid pid = some c) (hca : c.author ≠ user)
    (u : UserRec) (hu : findUser db name = some u)
    (hua : u.username ≠ requester) :
    postUpdateView db user pk pform =
      (Response.redirect (Target.postDetail pk), db) ∧
    postDeleteView db user pk method =
      (Response.redirect (Target.postDetail pk), db) ∧
    edit_comment db user cid pid cform =
      (Response.redirect (Target.postDetail pid), db) ∧
    delete_comment db user cid pid method =
      (Response.redirect (Target.postDetail pid), db) ∧
    edit_profile db requester name uform =
      (Response.redirect Target.login, db) := by
  refine ⟨?_, ?_, ?_, ?_, ?_⟩
  · unfold postUpdateView; rw [hp]; simp [hpa]
  · unfold postDeleteView; rw [hp]; simp [hpa]
  · unfold edit_comment; rw [hc]; simp [hca]
  · unfold delete_comment; rw [hc]; simp [hca]
  · unfold edit_profile; rw [hu]; simp [hua]

/-- Claim C3, witness: the amended guard at the example database, with bob
(user 2) targeting alice's post, comment and profile. -/
theorem c3_nonauthor_guard_witness :
    postUpdateView exDB 2 1 none =
      (Response.redirect (Target.postDetail 1), exDB) ∧
    postDeleteView exDB 2 1 Method.get =
      (Response.redirect (Target.postDetail 1), exDB) ∧
    edit_comment exDB 2 1 1 none =
      (Response.redirect (Target.postDetail 1), exDB) ∧
    delete_comment exDB 2 1 1 Method.get =
      (Response.redirect (Target.postDetail 1), exDB) ∧
    edit_profile exDB "bob" "alice" none =
      (Response.redirect Target.login, exDB) :=
  c3_nonauthor_guard exDB 2 1 1 1 "bob" "alice" none none none Method.get
    futurePost (by decide) (by decide)
    aliceComment (by decide) (by decide)
    alice (by decide) (by decide)

/-- Claim C4 (counterexample): post 1 is not publicly visible at time 0, yet
a comment-creation request by user 2 persists a new comment on it — the
handler fetches the post with no visibility filter. -/
theorem c4_counterexample :
    publishedFilter exDB 0 futurePost = false ∧
    findPost exDB 1 = some futurePost ∧
    (add_comment exDB 2 1 (some "hi")).2.comments.length =
      exDB.comments.length + 1 := by decide

/-- Claim C4 (amended): a valid comment submission by an authenticated user
on any existing post — visible or not — appends a comment with the requester
as author and the post as parent, then redirects to the post's detail
page. -/
theorem c4_comment_any_post (db : DB) (user pk : Nat) (text : String)
    (p : Post) (hp : findPost db pk = some p) :
    add_comment db user pk (some text) =
      (Response.redirect (Target.postDetail pk),
       { db with
           comments := db.comments ++
             [{ id := db.nextCommentId, author := user, post_id := pk,
                text := text }],
           nextCommentId := db.nextCommentId + 1 }) := by
  unfold add_comment; rw [hp]

/-- Claim C4, witness: the amended statement at the example database, on the
post that is not publicly visible at time 0. -/
theorem c4_comment_any_post_witness :
    add_comment exDB 2 1 (some "hi") =
      (Response.redirect (Target.postDetail 1),
       { exDB with
           comments := exDB.comments ++
             [{ id := exDB.nextCommentId, author := 2, post_id := 1,
                text := "hi" }],
           nextCommentId := exDB.nextCommentId + 1 }) :=
  c4_comment_any_post exDB 2 1 "hi" futurePost (by decide)

/-- Claim C5 (counterexample): an invalid comment-creation submission does
not re-render the form: the handler redirects to the post's detail page (it
does, however, persist nothing). -/
theorem c5_counterexample :
    add_comment exDB 1 1 none = (Response.redirect (Target.postDetail 1), exDB) ∧
    (add_comment exDB 1 1 none).1.isRender = false := by decide

/-- Claim C5 (amended): an invalid form submission persists nothing in any
form-handling handler; post creation, post edit, comment edit and profile
edit re-render their form template, while comment creation redirects to the
post's detail page instead. -/
theorem c5_invalid_form (db : DB) (user pk cid pid : Nat) (name : String)
    (creator : UserRec)
    (p : Post) (hp : findPost db pk = some p) (hpa : p.author = user)
    (c : Comment) (hc : findComment db cid pid = some c) (hca : c.author = user)
    (w : UserRec) (hw : findUser db name = some w) (hwn : w.username = name) :
    postCreateView db creator none =
      (Response.render "blog/create.html" 200, db) ∧
    postUpdateView db user pk none =
      (Response.render "blog/create.html" 200, db) ∧
    add_comment db user pk none =
      (Response.redirect (Target.postDetail pk), db) ∧
    edit_comment db user cid pid none =
      (Response.render "blog/comment.html" 200, db) ∧
    edit_profile db name name none =
      (Response.render "blog/user.html" 200, db) := by
  refine ⟨rfl, ?_, ?_, ?_, ?_⟩
  · unfold postUpdateView; rw [hp]; simp [hpa]
  · unfold add_comment; rw [hp]
  · unfold edit_comment; rw [hc]; simp [hca]
  · unfold edit_profile; rw [hw]; simp [hwn]

/-- Claim C5, witness: the amended statement at the example database, with
alice (user 1) submitting invalid forms against her own records. -/
theorem c5_invalid_form_witness :
    postCreateView exDB bob none =
      (Response.render "blog/create.html" 200, exDB) ∧
    postUpdateView exDB 1 1 none =
      (Response.render "blog/create.html" 200, exDB) ∧
    add_comment exDB 1 1 none =
      (Response.redirect (Target.postDetail 1), exDB) ∧
    edit_comment exDB 1 1 1 none =
      (Response.render "blog/comment.html" 200, exDB) ∧
    edit_profile exDB "alice" "alice" none =
      (Response.render "blog/user.html" 200, exDB) :=
  c5_invalid_form exDB 1 1 1 1 "alice" bob
    futurePost (by decide) (by decide)
    aliceComment (by decide) (by decide)
    alice (by decide) (by decide)

/-- The paginator always has at least one page (shared helper; Django's
`allow_empty_first_page=True` default). -/
theorem one_le_numPages (N K : Nat) (hK : 0 < K) : 1 ≤ numPages N K := by
  unfold numPages
  rw [Nat.le_div_iff_mul_le hK]
  omega

/-- The slice landing on the last page has `N mod K` records, or `K` when
`K` divides `N` (shared helper for the pagination claim). -/
theorem lastPageLen (N K : Nat) (hK : 0 < K) (hN : 0 < N) :
    min K (N - (numPages N K - 1) * K) =
      if N % K = 0 then K else N % K := by
  obtain ⟨q, r, hr, hNe⟩ : ∃ q r, r < K ∧ N = K * q + r :=
    ⟨N / K, N % K, Nat.mod_lt _ hK, (Nat.div_add_mod N K).symm⟩
  have hmod : N % K = r := by
    rw [hNe, Nat.mul_add_mod, Nat.mod_eq_of_lt hr]
  have hmax : max 1 N = N := Nat.max_eq_right hN
  rw [hmod]
  by_cases h0 : r = 0
  · subst h0
    have hq : 0 < q := by
      by_contra hq0
      have hq1 : q = 0 := by omega
      rw [hq1] at hNe
      omega
    have hnp : numPages N K = q := by
      unfold numPages
      rw [hmax, hNe]
      have he : K * q + 0 + K - 1 = K * q + (K - 1) := by omega
      rw [he, Nat.mul_add_div hK, Nat.div_eq_of_lt (by omega)]
      omega
    rw [hnp, if_pos rfl, hNe, Nat.sub_mul, one_mul, Nat.mul_comm q K]
    have hKq : K ≤ K * q := by
      have h1 := Nat.mul_le_mul_left K hq
      simpa using h1
    omega
  · have hnp : numPages N K = q + 1 := by
      unfold numPages
      rw [hmax, hNe]
      have he : K * q + r + K - 1 = K * q + (r + K - 1) := by omega
      rw [he, Nat.mul_add_div hK]
      have hd : (r + K - 1) / K = 1 := by
        rw [Nat.div_eq_of_lt_le] <;> omega
      rw [hd]
    rw [hnp, if_neg h0, hNe, Nat.add_sub_cancel, Nat.mul_comm q K]
    omega

/-- Claim C6 (counterexample): for 25 records and page size 10 the valid
pages are 1 to 3; the page parameter 0 is out of range below, and the
paginator answers with the last page (3), not with page 1 as clamping to the
valid range (or treating 0 as invalid) would give. -/
theorem c6_counterexample :
    (paginate_objects (List.range 25) 10 (PageArg.int 0)).number = 3 ∧
    numPages (List.range 25).length 10 = 3 := by decide

/-- Claim C6 (amended): an absent or non-integer page parameter yields page
1; an integer page number out of range in either direction (above the last
page or below 1) yields the last valid page; for a nonempty list the last
page holds the remaining `N mod K` records (`K` when `K` divides `N`); and
every returned page carries the previous/next-existence flags and the total
page count. -/
theorem c6_pagination {α : Type} (objects : List α) (per_page : Nat) (n : Int)
    (hK : 0 < per_page) (hN : 0 < objects.length) :
    (paginate_objects objects per_page PageArg.absent).number = 1 ∧
    (paginate_objects objects per_page PageArg.notAnInt).number = 1 ∧
    ((n < 1 ∨ (numPages objects.length per_page : Int) < n) →
      (paginate_objects objects per_page (PageArg.int n)).number =
        numPages objects.length per_page) ∧
    (paginate_objects objects per_page
        (PageArg.int (numPages objects.length per_page))).object_list.length =
      (if objects.length % per_page = 0 then per_page
       else objects.length % per_page) ∧
    (∀ arg : PageArg,
      (paginate_objects objects per_page arg).num_pages =
        numPages objects.length per_page ∧
      (paginate_objects objects per_page arg).has_previous =
        decide (1 < (paginate_objects objects per_page arg).number) ∧
      (paginate_objects objects per_page arg).has_next =
        decide ((paginate_objects objects per_page arg).number <
          numPages objects.length per_page)) := by
  have h1np := one_le_numPages objects.length per_page hK
  have hg : getPageNumber objects.length per_page
      (PageArg.int (numPages objects.length per_page)) =
      numPages objects.length per_page := by
    simp only [getPageNumber]
    rw [if_neg (by exact_mod_cast Nat.not_lt.mpr h1np),
        if_neg (lt_irrefl _)]
    exact Int.toNat_natCast _
  refine ⟨rfl, rfl, ?_, ?_, ?_⟩
  · intro h
    simp only [paginate_objects, getPage, getPageNumber]
    rcases h with h | h
    · rw [if_pos h]
    · have hn1 : ¬ n < 1 := by
        have : (1 : Int) ≤ (numPages objects.length per_page : Int) := by
          exact_mod_cast h1np
        omega
      rw [if_neg hn1, if_pos h]
  · show ((objects.drop ((getPageNumber objects.length per_page
        (PageArg.int (numPages objects.length per_page)) - 1) *
        per_page)).take per_page).length = _
    rw [hg, List.length_take, List.length_drop]
    exact lastPageLen objects.length per_page hK hN
  · intro arg
    exact ⟨rfl, rfl, rfl⟩

/-- Claim C6, witness: the amended statement for 25 records, page size 10
and the out-of-range request 99. -/
theorem c6_pagination_witness :
    (0:Nat) < 10 ∧ 0 < (List.range 25).length ∧
    ((paginate_objects (List.range 25) 10 PageArg.absent).number = 1 ∧
     (paginate_objects (List.range 25) 10 PageArg.notAnInt).number = 1 ∧
     (((99:Int) < 1 ∨ (numPages (List.range 25).length 10 : Int) < 99) →
       (paginate_objects (List.range 25) 10 (PageArg.int 99)).number =
         numPages (List.range 25).length 10) ∧
     (paginate_objects (List.range 25) 10
         (PageArg.int (numPages (List.range 25).length 10))).object_list.length =
       (if (List.range 25).length % 10 = 0 then 10
        else (List.range 25).length % 10) ∧
     (∀ arg : PageArg,
       (paginate_objects (List.range 25) 10 arg).num_pages =
         numPages (List.range 25).length 10 ∧
       (paginate_objects (List.range 25) 10 arg).has_previous =
         decide (1 < (paginate_objects (List.range 25) 10 arg).number) ∧
       (paginate_objects (List.range 25) 10 arg).has_next =
         decide ((paginate_objects (List.range 25) 10 arg).number <
           numPages (List.range 25).length 10))) :=
  ⟨by decide, by decide, c6_pagination (List.range 25) 10 99 (by decide) (by decide)⟩

/-- The home listing is pairwise ordered by descending publish timestamp
(shared helper). -/
theorem postListOrdered_pairwise (db : DB) (now : Int) :
    List.Pairwise byRecentFirst (postListOrdered db now) :=
  List.sorted_insertionSort byRecentFirst (postListQueryset db now)

/-- Claim C7: the home listing consists exactly of the visible posts, and
whenever the post at position `i` has a strictly later publish timestamp
than the post at position `j`, position `i` comes first (`i < j`). -/
theorem c7_home_listing_ordered (db : DB) (now : Int) (i j : Nat)
    (hi : i < (postListOrdered db now).length)
    (hj : j < (postListOrdered db now).length)
    (hlt : ((postListOrdered db now).get ⟨j, hj⟩).pub_date <
           ((postListOrdered db now).get ⟨i, hi⟩).pub_date) :
    i < j ∧ ∀ p : Post, p ∈ postListOrdered db now ↔
      (p ∈ db.posts ∧ publishedFilter db now p = true) := by
  constructor
  · by_contra hij
    rcases Nat.lt_or_ge j i with hji | hji2
    · have hpw := postListOrdered_pairwise db now
      rw [List.pairwise_iff_get] at hpw
      have hle := hpw ⟨j, hj⟩ ⟨i, hi⟩ hji
      exact absurd hle (not_le.mpr hlt)
    · have hije : i = j := by omega
      have hfe : (⟨j, hj⟩ : Fin (postListOrdered db now).length) = ⟨i, hi⟩ :=
        Fin.ext (by simp [hije])
      rw [hfe] at hlt
      exact lt_irrefl _ hlt
  · intro p
    unfold postListOrdered postListQueryset
    rw [List.mem_insertionSort, List.mem_filter]

/-- Claim C7, witness: at the example database and time 10, the listing is
the two visible posts sorted most-recent-first, and its first element is the
later one. -/
theorem c7_home_listing_ordered_witness :
    (0:Nat) < 1 ∧ (futurePost ∈ postListOrdered exDB 10 ↔
      (futurePost ∈ exDB.posts ∧ publishedFilter exDB 10 futurePost = true)) :=
  ⟨(c7_home_listing_ordered exDB 10 0 1 (by decide) (by decide) (by decide)).1,
   (c7_home_listing_ordered exDB 10 0 1 (by decide) (by decide)
      (by decide)).2 futurePost⟩

/-- Claim C8: the custom error views render `core/404.html` with status 404
and `core/403csrf.html` with status 403, the framework dispatch routes the
two error conditions to them, and a handler whose record lookup fails ends
in the 404 path with the database untouched. -/
theorem c8_error_handling (db : DB) (user pk : Nat)
    (hp : findPost db pk = none) :
    errorDispatch ErrorKind.recordNotFound =
      Response.render "core/404.html" 404 ∧
    errorDispatch ErrorKind.csrfFailure =
      Response.render "core/403csrf.html" 403 ∧
    (errorDispatch ErrorKind.recordNotFound).status = 404 ∧
    (errorDispatch ErrorKind.csrfFailure).status = 403 ∧
    (errorDispatch ErrorKind.recordNotFound).isRender = true ∧
    (errorDispatch ErrorKind.csrfFailure).isRender = true ∧
    add_comment db user pk (some "x") = (Response.http404, db) ∧
    postDetailView db user pk = Response.http404 := by
  refine ⟨rfl, rfl, rfl, rfl, rfl, rfl, ?_, ?_⟩
  · unfold add_comment; rw [hp]
  · unfold postDetailView postDetailGetObject
    have hnone : (db.posts.filter
        (fun q => q.is_published || q.author == user)).find?
        (fun q => q.id == pk) = none := by
      rw [List.find?_eq_none]
      intro a ha
      unfold findPost at hp
      rw [List.find?_eq_none] at hp
      exact hp a (List.mem_of_mem_filter ha)
    rw [hnone]

/-- Claim C8, witness: the statement at the example database and the absent
post id 99. -/
theorem c8_error_handling_witness :
    errorDispatch ErrorKind.recordNotFound =
      Response.render "core/404.html" 404 ∧
    errorDispatch ErrorKind.csrfFailure =
      Response.render "core/403csrf.html" 403 ∧
    (errorDispatch ErrorKind.recordNotFound).status = 404 ∧
    (errorDispatch ErrorKind.csrfFailure).status = 403 ∧
    (errorDispatch ErrorKind.recordNotFound).isRender = true ∧
    (errorDispatch ErrorKind.csrfFailure).isRender = true ∧
    add_comment exDB 1 99 (some "x") = (Response.http404, exDB) ∧
    postDetailView exDB 1 99 = Response.http404 :=
  c8_error_handling exDB 1 99 (by decide)

/-- Claim C9: the category route answers 404 exactly when no category with
the published flag set bears the requested slug — in particular a slug whose
category is unpublished gets 404, never an empty listing, and a category
page is served only for a published category. -/
theorem c9_category_gate (db : DB) (now : Int) (slug : String)
    (arg : PageArg) :
    (category_posts db now slug arg).1 = Response.http404 ↔
      ∀ c ∈ db.categories, c.is_published = true → c.slug ≠ slug := by
  unfold category_posts
  cases hfind : db.categories.find?
      (fun c => c.is_published && c.slug == slug) with
  | none =>
    rw [List.find?_eq_none] at hfind
    constructor
    · intro _ c hc hcp hslug
      have hcontra := hfind c hc
      simp only [Bool.and_eq_true, beq_iff_eq, not_and] at hcontra
      exact hcontra hcp hslug
    · intro _
      rfl
  | some cat =>
    constructor
    · intro h
      exact absurd h (by simp)
    · intro h
      exfalso
      have hcm := List.mem_of_find?_eq_some hfind
      have hcp := List.find?_some hfind
      simp only [Bool.and_eq_true, beq_iff_eq] at hcp
      exact (h cat hcm hcp.1) hcp.2

/-- Claim C10: an authenticated author's non-POST request to the
comment-delete route renders the confirmation page and leaves the database
unchanged; only the POST request removes the comment (and redirects to the
post's detail page). -/
theorem c10_delete_confirmation (db : DB) (user cid pid : Nat)
    (c : Comment) (hc : findComment db cid pid = some c)
    (hca : c.author = user) :
    delete_comment db user cid pid Method.get =
      (Response.render "blog/comment.html" 200, db) ∧
    delete_comment db user cid pid Method.post =
      (Response.redirect (Target.postDetail pid),
       { db with comments := (db.comments.filter (fun x => x.id != c.id)) }) := by
  constructor
  · unfold delete_comment; rw [hc]; simp [hca]
  · unfold delete_comment; rw [hc]; simp [hca]

/-- Claim C10, witness: alice's GET to the delete route for her own comment
renders the confirmation with the comment intact; her POST removes it. -/
theorem c10_delete_confirmation_witness :
    delete_comment exDB 1 1 1 Method.get =
      (Response.render "blog/comment.html" 200, exDB) ∧
    delete_comment exDB 1 1 1 Method.post =
      (Response.redirect (Target.postDetail 1),
       { exDB with comments := (exDB.comments.filter
           (fun x => x.id != aliceComment.id)) }) :=
  c10_delete_confirmation exDB 1 1 1 aliceComment (by decide) (by decide)
